import Mathlib

/- Shallow embedding of the browser-side probe orchestration engine of the
connection-test tool, together with theorems about its media cleanup path,
network identity probe, private-browsing detectors, frame-capture retry loop
and report digest. Definitions mirror the JavaScript sources; asynchronous
callbacks and timers are modelled as explicit event traces, fetch results and
thrown exceptions as Except values. -/

deriving instance DecidableEq for Except

namespace ConnTest

/- ------------------------------------------------------------------ -/
/- String helpers modelling the JavaScript String.prototype.includes. -/
/- ------------------------------------------------------------------ -/

def containsSub : List Char → List Char → Bool
  | [], p => p.isEmpty
  | c :: t, p => List.isPrefixOf p (c :: t) || containsSub t p

def includesStr (s pat : String) : Bool :=
  containsSub s.toList pat.toList

/- ------------------------------------------------------------------ -/
/- The ICE candidate address pattern of getLocalIPs:                   -/
/-   ([0-9]{1,3}(\.[0-9]{1,3}){3}|[a-f0-9]{1,4}(:[a-f0-9]{1,4}){7})    -/
/- implemented as a leftmost-match scanner with greedy backtracking.   -/
/- ------------------------------------------------------------------ -/

def isHexLower (c : Char) : Bool :=
  c.isDigit || ('a' ≤ c && c ≤ 'f')

/- All ways to split off between 1 and limit leading characters satisfying
ok, longest split first, matching a greedy bounded quantifier. -/
def greedySplits (limit : Nat) (ok : Char → Bool) (cs : List Char) : List (List Char × List Char) :=
  let len := min (cs.takeWhile ok).length limit
  (List.range len).map (fun i => (cs.take (len - i), cs.drop (len - i)))

def dotGroup (cs : List Char) : List (List Char × List Char) :=
  match cs with
  | '.' :: rest => (greedySplits 3 Char.isDigit rest).map (fun p => ('.' :: p.1, p.2))
  | _ => []

def colonGroup (cs : List Char) : List (List Char × List Char) :=
  match cs with
  | ':' :: rest => (greedySplits 4 isHexLower rest).map (fun p => (':' :: p.1, p.2))
  | _ => []

def repGroups (grp : List Char → List (List Char × List Char)) : Nat → List Char → List (List Char × List Char)
  | 0, cs => [([], cs)]
  | n + 1, cs => (grp cs).flatMap (fun p => (repGroups grp n p.2).map (fun q => (p.1 ++ q.1, q.2)))

def v4At (cs : List Char) : Option (List Char) :=
  (greedySplits 3 Char.isDigit cs).findSome? (fun p =>
    match repGroups dotGroup 3 p.2 with
    | [] => none
    | q :: _ => some (p.1 ++ q.1))

def v6At (cs : List Char) : Option (List Char) :=
  (greedySplits 4 isHexLower cs).findSome? (fun p =>
    match repGroups colonGroup 7 p.2 with
    | [] => none
    | q :: _ => some (p.1 ++ q.1))

def ipSearch : List Char → Option (List Char)
  | [] => none
  | c :: t => (v4At (c :: t)).orElse (fun _ => (v6At (c :: t)).orElse (fun _ => ipSearch t))

def extractIp (s : String) : Option String :=
  (ipSearch s.toList).map (fun l => String.mk l)

/- ------------------------------------------------------------------ -/
/- getLocalIPs: peer-connection candidate harvesting, modelled as a    -/
/- state machine driven by a timed event trace. The events are the     -/
/- onicecandidate callbacks (with a candidate string, or the null      -/
/- candidate signalling gathering complete), the createOffer failure   -/
/- callback, and the 2000 ms setTimeout callback. The promise resolve  -/
/- is first-wins, recorded with the time at which it happened.         -/
/- ------------------------------------------------------------------ -/

structure LocalIPs where
  ipv4 : List String
  ipv6 : List String
deriving DecidableEq

def addUnique (l : List String) (x : String) : List String :=
  if x ∈ l then l else l ++ [x]

structure GatherState where
  v4 : List String
  v6 : List String
  complete : Bool
  closed : Bool
  resolved : Option (Nat × LocalIPs)
deriving DecidableEq

inductive IceEvent where
  | candidate (c : String)
  | gatherComplete
  | offerError
  | timer
deriving DecidableEq

def processCandidate (st : GatherState) (c : String) : GatherState :=
  match extractIp c with
  | none => st
  | some ip =>
    if includesStr ip ":" then
      if includesStr ip ".local" then st else { st with v6 := addUnique st.v6 ip }
    else
      if includesStr ip ".local" then st else { st with v4 := addUnique st.v4 ip }

def mkResult (st : GatherState) : LocalIPs :=
  { ipv4 := if st.v4.length > 0 then st.v4 else ["Not available"],
    ipv6 := if st.v6.length > 0 then st.v6 else ["Not available"] }

def resolveFirst (st : GatherState) (t : Nat) (r : LocalIPs) : Option (Nat × LocalIPs) :=
  match st.resolved with
  | some x => some x
  | none => some (t, r)

def stepEv (st : GatherState) (t : Nat) (e : IceEvent) : GatherState :=
  match e with
  | .candidate c => if st.closed then st else processCandidate st c
  | .gatherComplete =>
    if st.closed then st
    else { st with complete := true, closed := true, resolved := resolveFirst st t (mkResult st) }
  | .offerError =>
    { st with resolved := resolveFirst st t ⟨["Not available"], ["Not available"]⟩ }
  | .timer =>
    if st.complete then st
    else { st with closed := true, resolved := resolveFirst st t (mkResult st) }

def gatherInit : GatherState := ⟨[], [], false, false, none⟩

def runGather (tr : List (Nat × IceEvent)) : GatherState :=
  tr.foldl (fun st te => stepEv st te.1 te.2) gatherInit

/- The ctorThrows flag models the outer try catch around the
RTCPeerConnection construction: on a synchronous failure the promise is
resolved immediately with the Not available sentinel pair. -/
def getLocalIPs (ctorThrows : Bool) (tr : List (Nat × IceEvent)) : GatherState :=
  if ctorThrows then
    { gatherInit with resolved := some (0, ⟨["Not available"], ["Not available"]⟩) }
  else runGather tr

def sortedByTime : List (Nat × IceEvent) → Bool
  | [] => true
  | [_] => true
  | a :: b :: t => decide (a.1 ≤ b.1) && sortedByTime (b :: t)

/- Invariant for the timeout bound: a complete gathering state is closed
and resolved, and every recorded resolution happened no later than B. -/
def InvPre (B : Nat) (st : GatherState) : Prop :=
  (st.complete = true → st.closed = true) ∧
  (st.complete = true → ∃ x, st.resolved = some x) ∧
  (∀ x : Nat × LocalIPs, st.resolved = some x → x.1 ≤ B)

/- A result list with no duplicates and no mDNS .local entry. -/
def cleanList (l : List String) : Prop :=
  l.Nodup ∧ ∀ ip ∈ l, includesStr ip ".local" = false

def ResultClean (r : LocalIPs) : Prop :=
  cleanList r.ipv4 ∧ cleanList r.ipv6

def InvClean (st : GatherState) : Prop :=
  cleanList st.v4 ∧ cleanList st.v6 ∧
  ∀ x : Nat × LocalIPs, st.resolved = some x → ResultClean x.2

/- A gathering trace that delivers one loopback host candidate before the
timeout fires. -/
def loopbackTrace : List (Nat × IceEvent) :=
  [(100, .candidate "candidate:1 1 udp 2122 127.0.0.1 54400 typ host"),
   (2000, .timer)]

/- ------------------------------------------------------------------ -/
/- getLocalIPLocation: detects the no-address case by comparing the    -/
/- first element of each list with the sentinel string.                -/
/- ------------------------------------------------------------------ -/

structure LocBody where
  city : String
  region : String
  country : String
deriving DecidableEq

structure LocResponse where
  ok : Bool
  body : LocBody
deriving DecidableEq

inductive LocOutcome where
  | err (msg : String)
  | loc (body : LocBody)
deriving DecidableEq

def pickIpToCheck (ips : LocalIPs) : Option String :=
  if ips.ipv4.head? != some "Not available" then ips.ipv4.head? else ips.ipv6.head?

def localLocationFetch (svc : Except Unit LocResponse) : LocOutcome :=
  match svc with
  | .error _ => .err "Could not determine local location"
  | .ok resp => if resp.ok then .loc resp.body else .err "Could not determine local location"

def getLocalIPLocation (ips : LocalIPs) (svc : Except Unit LocResponse) : LocOutcome :=
  if ips.ipv4.head? == some "Not available" && ips.ipv6.head? == some "Not available" then
    .err "Could not detect local IP"
  else localLocationFetch svc

/- ------------------------------------------------------------------ -/
/- getPublicIP: same-origin /get-ip first, api.ipify.org second, both  -/
/- wrapped in one try catch that returns null. A fetch is either a     -/
/- transport error (the promise rejects) or a response with an ok flag -/
/- and a json body that may itself fail to parse.                      -/
/- ------------------------------------------------------------------ -/

structure IpResponse where
  ok : Bool
  json : Except Unit String
deriving DecidableEq

structure IpEnv where
  getIpFetch : Except Unit IpResponse
  ipifyFetch : Except Unit IpResponse
deriving DecidableEq

def getPublicIP (env : IpEnv) : Option String :=
  match env.getIpFetch with
  | .error _ => none
  | .ok resp =>
    if resp.ok then
      match resp.json with
      | .error _ => none
      | .ok ip => some ip
    else
      match env.ipifyFetch with
      | .error _ => none
      | .ok resp2 =>
        if !resp2.ok then none
        else
          match resp2.json with
          | .error _ => none
          | .ok ip => some ip

/- ------------------------------------------------------------------ -/
/- captureImageFrame: the sampled 10 x 10 region of attempt k is       -/
/- video k; a frame is blank when every sampled value is zero. The     -/
/- attempts counter starts at 3 and the loop resolves the current      -/
/- frame when it is not blank or the counter is exhausted, otherwise   -/
/- it retries after a 200 ms backoff.                                  -/
/- ------------------------------------------------------------------ -/

def isBlankFrame (f : List Nat) : Bool :=
  f.all (fun v => v == 0)

def attemptCapture (video : Nat → List Nat) : Nat → Nat → Nat × List Nat
  | k, 0 => (k, video k)
  | k, a + 1 => if isBlankFrame (video k) then attemptCapture video (k + 1) a else (k, video k)

def captureImageFrame (video : Nat → List Nat) : Nat × List Nat :=
  attemptCapture video 0 3

/- ------------------------------------------------------------------ -/
/- The FingerprintMediaTest mutable state and its cleanup routine.     -/
/- ------------------------------------------------------------------ -/

structure Track where
  stopped : Bool
  isAudio : Bool
deriving DecidableEq

structure VideoEl where
  srcObject : Option Unit
  display : String
deriving DecidableEq

structure DomElem where
  display : String
deriving DecidableEq

structure AudioCtx where
  closed : Bool
deriving DecidableEq

structure AppState where
  mediaStream : Option (List Track)
  audioVisualizerActive : Bool
  audioContext : Option AudioCtx
  analyser : Option Unit
  audioBars : List String
  localVideo : Option VideoEl
  placeholder : Option DomElem
  statusText : String
  startDisabled : Bool
  startLabel : String
  privacyText : String
  networkText : String
  localIPv4Text : String
  localIPv6Text : String
  localLocationText : String
  cameraText : String
  micText : String
deriving DecidableEq

def stopTrack (t : Track) : Track := { t with stopped := true }

def stopTracks (s : AppState) : AppState :=
  match s.mediaStream with
  | some ts => { s with mediaStream := some (ts.map stopTrack) }
  | none => s

def stopAudioVisualizer (s : AppState) : AppState :=
  let s1 := { s with audioVisualizerActive := false,
                     audioBars := s.audioBars.map (fun _ => "10%") }
  match s1.audioContext with
  | some _ => { s1 with audioContext := none, analyser := none }
  | none => s1

def resetVideo (s : AppState) : AppState :=
  match s.localVideo with
  | some v => { s with localVideo := some { v with srcObject := none, display := "none" } }
  | none => s

def showPlaceholder (s : AppState) : AppState :=
  match s.placeholder with
  | some p => { s with placeholder := some { p with display := "block" } }
  | none => s

def cleanup (s : AppState) : AppState :=
  showPlaceholder (resetVideo (stopAudioVisualizer (stopTracks s)))

/- No live capture resources: every track of the held stream stopped, the
rendering sink detached and hidden, the placeholder shown again. -/
def releasedB (s : AppState) : Bool :=
  (match s.mediaStream with
   | some ts => ts.all (fun t => t.stopped)
   | none => true) &&
  (match s.localVideo with
   | some v => v.srcObject.isNone && v.display == "none"
   | none => true) &&
  (match s.placeholder with
   | some p => p.display == "block"
   | none => true)

def setTestStatus (s : AppState) (message : String) (isLoading : Bool) (buttonText : String) : AppState :=
  { s with statusText := message, startDisabled := isLoading,
           startLabel := if isLoading then "Starting Test..." else buttonText }

def setMediaStatus (s : AppState) (status cameraText micText : String) : AppState :=
  { s with statusText := status,
           cameraText := "Camera: " ++ cameraText,
           micText := "Microphone: " ++ micText }

/- ------------------------------------------------------------------ -/
/- The constructor registers one cleanup handler for pagehide and      -/
/- beforeunload, and a visibilitychange handler that runs cleanup only -/
/- when the document became hidden. Dispatching an event runs the      -/
/- registered listeners for it and counts cleanup invocations.         -/
/- ------------------------------------------------------------------ -/

inductive HandlerAction where
  | runCleanup
  | cleanupIfHidden
deriving DecidableEq

structure Listener where
  eventName : String
  action : HandlerAction
deriving DecidableEq

def registeredListeners : List Listener :=
  [⟨"pagehide", .runCleanup⟩, ⟨"beforeunload", .runCleanup⟩,
   ⟨"visibilitychange", .cleanupIfHidden⟩]

def runListener (visibilityState : String) (a : HandlerAction) (s : AppState) : AppState × Nat :=
  match a with
  | .runCleanup => (cleanup s, 1)
  | .cleanupIfHidden => if visibilityState == "hidden" then (cleanup s, 1) else (s, 0)

def dispatchPageEvent (eventName visibilityState : String) (s : AppState) : AppState × Nat :=
  (registeredListeners.filter (fun l => l.eventName == eventName)).foldl
    (fun acc l =>
      let r := runListener visibilityState l.action acc.1
      (r.1, acc.2 + r.2))
    (s, 0)

/- ------------------------------------------------------------------ -/
/- runTests: the orchestrator pipeline. Async operations take their    -/
/- outcome from the environment; a thrown error is an Except.error.    -/
/- The try block body runs the probe sequence, the catch branch sets   -/
/- the error status, and the finally branch always runs cleanup.       -/
/- ------------------------------------------------------------------ -/

structure RunEnv where
  publicIP : Option String
  localIPs : LocalIPs
  localLocation : Option LocBody
  fingerprintUpload : Except String Unit
  getUserMedia : Except String (List Track)
  videoReady : Except String Unit
  cameraCapture : Except String Unit
  micTest : Except String Unit
deriving DecidableEq

def handleMediaError (s : AppState) (msg : String) : AppState :=
  setMediaStatus s ("Error: " ++ msg) "Failed" "Failed"

def attachVideo (s : AppState) : AppState :=
  { s with localVideo := s.localVideo.map (fun v => { v with srcObject := some (), display := "block" }),
           placeholder := s.placeholder.map (fun p => { p with display := "none" }) }

def captureAndSaveMedia (env : RunEnv) (s : AppState) : AppState × Option String :=
  let s1 := setMediaStatus s "Checking camera and microphone permissions..." "Checking..." "Checking..."
  match env.getUserMedia with
  | .error e => (handleMediaError s1 e, some e)
  | .ok tracks =>
    let s2 := { s1 with mediaStream := some tracks }
    let s3 := attachVideo s2
    match env.videoReady with
    | .error e => (handleMediaError s3 e, some e)
    | .ok _ =>
      let s4 := { s3 with cameraText := "Camera: Detected", statusText := "Testing camera... Smile!" }
      match env.cameraCapture with
      | .error e => (handleMediaError s4 e, some e)
      | .ok _ =>
        let s5 := { s4 with cameraText := "Camera: Working properly" }
        if (tracks.filter (fun t => t.isAudio)).length > 0 then
          let s6 := { s5 with micText := "Microphone: Detected",
                              statusText := "Testing microphone... Speak now!" }
          match env.micTest with
          | .error e => (handleMediaError s6 e, some e)
          | .ok _ => ({ s6 with micText := "Microphone: Working properly" }, none)
        else ({ s5 with micText := "Microphone: Not detected" }, none)

/- The tail of runTests: the fingerprint upload and media capture steps of
the try block, the catch branch setting the error status, and the finally
branch running cleanup on every path. -/
def runTestsFinish (env : RunEnv) (s6 : AppState) : AppState :=
  match env.fingerprintUpload with
  | .error e => cleanup (setTestStatus s6 ("Test encountered an error: " ++ e) false "Retry Test")
  | .ok _ =>
    match captureAndSaveMedia env s6 with
    | (s7, some e) => cleanup (setTestStatus s7 ("Test encountered an error: " ++ e) false "Retry Test")
    | (s7, none) =>
      cleanup (setTestStatus s7 "Test completed successfully! All components are working properly." false "Test Again")

def runTests (env : RunEnv) (s : AppState) : AppState :=
  let s1 := cleanup s
  let s2 := setTestStatus s1 "Initializing test..." true "Start Test"
  let s3 := { s2 with privacyText := "Network: public (Public IP: " ++ env.publicIP.getD "Unknown" ++ ")" }
  let s4 := { s3 with networkText := "Network: Detected (Public IP: " ++ env.publicIP.getD "Not available" ++ ")" }
  let s5 := setTestStatus s4 "Checking local network..." true "Start Test"
  let s6 := { s5 with localIPv4Text := String.intercalate ", " env.localIPs.ipv4,
                      localIPv6Text := String.intercalate ", " env.localIPs.ipv6,
                      localLocationText :=
                        match env.localLocation with
                        | some b => b.city ++ ", " ++ b.region ++ ", " ++ b.country
                        | none => "Not available" }
  runTestsFinish env s6

/- ------------------------------------------------------------------ -/
/- detectIncognitoMode of the main variant: five detection methods     -/
/- appended in order, each wrapped in a try catch; the final check     -/
/- downgrades the verdict when fewer than two methods fired.           -/
/- ------------------------------------------------------------------ -/

structure IncogResults where
  isIncognito : Bool
  detectionMethods : List String
deriving DecidableEq

def initResults : IncogResults := ⟨false, []⟩

def flagMethod (n : String) (r : IncogResults) : IncogResults :=
  { isIncognito := true, detectionMethods := r.detectionMethods ++ [n] }

def finalizeVerdict (r : IncogResults) : IncogResults :=
  if r.detectionMethods.length < 2 then { r with isIncognito := false } else r

structure Env10 where
  storageEstimateIn : Bool
  storageEstimate : Except String (Option Nat)
  fsApiIn : Bool
  fsRequest : Except String Bool
  uaChrome : Bool
  uaFirefox : Bool
  uaSafari : Bool
  idbOutcome : Except String Bool
  lsWrite : Except String Unit
  swIn : Bool
  swGetRegistration : Except String Bool
  swRegister : Except String Unit
deriving DecidableEq

/- Method 1: storage quota estimate; quota must be truthy and below the
120 MB threshold. -/
def rawMethod1 (env : Env10) (r : IncogResults) : Except String IncogResults :=
  if env.storageEstimateIn then
    match env.storageEstimate with
    | .error e => .error e
    | .ok none => .ok r
    | .ok (some q) =>
      .ok (if q != 0 && decide (q < 120 * 1024 * 1024) then flagMethod "storageQuota" r else r)
  else .ok r

/- Method 2: temporary filesystem request; the error callback flags only
on a Chrome user agent. -/
def rawMethod2 (env : Env10) (r : IncogResults) : Except String IncogResults :=
  if env.fsApiIn then
    match env.fsRequest with
    | .error e => .error e
    | .ok true => .ok r
    | .ok false => .ok (if env.uaChrome then flagMethod "fileSystemAPI" r else r)
  else .ok r

/- Method 3: Firefox indexedDB open; the onerror callback within the wait
window flags. -/
def rawMethod3 (env : Env10) (r : IncogResults) : Except String IncogResults :=
  if env.uaFirefox then
    match env.idbOutcome with
    | .error e => .error e
    | .ok b => .ok (if b then flagMethod "indexedDB" r else r)
  else .ok r

/- Method 4: Safari localStorage write; the catch branch is itself the
signal, so this method never escapes. -/
def method4 (env : Env10) (r : IncogResults) : IncogResults :=
  if env.uaSafari && !env.uaChrome then
    match env.lsWrite with
    | .ok _ => r
    | .error _ => flagMethod "localStorage" r
  else r

/- Method 5: service worker registration, attempted only when nothing has
fired yet; the inner catch flags only when other methods already fired. -/
def rawMethod5 (env : Env10) (r : IncogResults) : Except String IncogResults :=
  if !r.isIncognito && env.uaChrome && env.swIn then
    match env.swGetRegistration with
    | .error e => .error e
    | .ok true => .ok r
    | .ok false =>
      match env.swRegister with
      | .ok _ => .ok r
      | .error _ => .ok (if r.detectionMethods.length > 0 then flagMethod "serviceWorker" r else r)
  else .ok r

def tryIgnore (x : Except String IncogResults) (fallback : IncogResults) : IncogResults :=
  match x with
  | .ok r => r
  | .error _ => fallback

def step1 (env : Env10) (r : IncogResults) : IncogResults := tryIgnore (rawMethod1 env r) r

def step2 (env : Env10) (r : IncogResults) : IncogResults := tryIgnore (rawMethod2 env r) r

def step3 (env : Env10) (r : IncogResults) : IncogResults := tryIgnore (rawMethod3 env r) r

def step5 (env : Env10) (r : IncogResults) : IncogResults := tryIgnore (rawMethod5 env r) r

def detectIncognitoMode (env : Env10) : IncogResults :=
  finalizeVerdict (step5 env (method4 env (step3 env (step2 env (step1 env initResults)))))

/- The same pipeline with the try catch structure left explicit, so that
the absence of an escaping exception is a provable statement rather than
a typing convention. -/
def detectIncognitoModeE (env : Env10) : Except String IncogResults :=
  (Except.tryCatch (rawMethod1 env initResults) (fun _ => Except.ok initResults)).bind (fun r1 =>
  (Except.tryCatch (rawMethod2 env r1) (fun _ => Except.ok r1)).bind (fun r2 =>
  (Except.tryCatch (rawMethod3 env r2) (fun _ => Except.ok r2)).bind (fun r3 =>
  (let r4 := method4 env r3
  (Except.tryCatch (rawMethod5 env r4) (fun _ => Except.ok r4)).bind (fun r5 =>
  Except.ok (finalizeVerdict r5))))))

/- All engine calls that sit inside an empty catch branch fail. -/
def allRawFail (env : Env10) : Prop :=
  (∃ e, env.storageEstimate = .error e) ∧ (∃ e, env.fsRequest = .error e) ∧
  (∃ e, env.idbOutcome = .error e) ∧ (∃ e, env.swGetRegistration = .error e)

/- The invariant the method pipeline maintains: the verdict is private
exactly when at least one method fired, the fired-method list has no
duplicates, and every fired method belongs to the given name list. -/
def GoodR (L : List String) (r : IncogResults) : Prop :=
  (r.isIncognito = true ↔ r.detectionMethods ≠ []) ∧
  r.detectionMethods.Nodup ∧
  ∀ m ∈ r.detectionMethods, m ∈ L

/- An environment in which two independent methods fire. -/
def envTwoSignals : Env10 :=
  { storageEstimateIn := true, storageEstimate := .ok (some 1000), fsApiIn := true,
    fsRequest := .ok false, uaChrome := true, uaFirefox := false, uaSafari := false,
    idbOutcome := .ok false, lsWrite := .ok (), swIn := false,
    swGetRegistration := .ok true, swRegister := .ok () }

/- An environment in which every engine call that sits in an empty catch
branch throws. -/
def envAllFail : Env10 :=
  { storageEstimateIn := true, storageEstimate := .error "boom", fsApiIn := true,
    fsRequest := .error "boom", uaChrome := true, uaFirefox := true, uaSafari := false,
    idbOutcome := .error "boom", lsWrite := .ok (), swIn := true,
    swGetRegistration := .error "boom", swRegister := .ok () }

/- ------------------------------------------------------------------ -/
/- detectIncognito, the per-engine single-signal detector variant.     -/
/- Each engine branch settles the verdict from one check; the main     -/
/- dispatch rejects when a branch throws outside its local handlers.   -/
/- ------------------------------------------------------------------ -/

structure IncogVerdict where
  isPrivate : Bool
  browserName : String
  method : String
  signalsObserved : List String
deriving DecidableEq

def mkVerdict (p : Bool) (bn m : String) : IncogVerdict :=
  ⟨p, bn, m, if p then [m] else []⟩

structure IncogEnv where
  toFixedErrLen : Nat
  msSaveBlobDefined : Bool
  evalToStringLen : Nat
  uaChrome : Bool
  braveDefined : Bool
  uaEdg : Bool
  uaOPR : Bool
  storageGetDirDefined : Bool
  getDirectory : Except String Unit
  maxTouchPointsDefined : Bool
  idbOpenThrows : Bool
  idbUpgradeFires : Bool
  idbBlobPut : Except String Unit
  webSqlLs : Except String Unit
  promiseAllSettledDefined : Bool
  webkitTempStorageDefined : Bool
  tempStorageQuota : Except Unit Nat
  jsHeapSizeLimit : Option Nat
  webkitRequestFSDefined : Bool
  fsSuccess : Bool
  serviceWorkerDefined : Bool
  indexedDBDefined : Bool
deriving DecidableEq

def identifyChromium (env : IncogEnv) : String :=
  if env.uaChrome then
    if env.braveDefined then "Brave"
    else if env.uaEdg then "Edge"
    else if env.uaOPR then "Opera"
    else "Chrome"
  else "Chromium"

/- Math.round of q / m for nonnegative arguments. -/
def jsRoundDiv (q m : Nat) : Nat := (2 * q + m) / (2 * m)

def safariPrivateTest (env : IncogEnv) : IncogVerdict :=
  if env.storageGetDirDefined then
    match env.getDirectory with
    | .ok _ => mkVerdict false "Safari" "Storage API"
    | .error msg => mkVerdict (includesStr msg "unknown transient reason") "Safari" "Storage API error"
  else if env.maxTouchPointsDefined then
    if env.idbOpenThrows then mkVerdict false "Safari" "IndexedDB exception"
    else if env.idbUpgradeFires then
      match env.idbBlobPut with
      | .ok _ => mkVerdict false "Safari" "IndexedDB blob storage"
      | .error msg => mkVerdict (includesStr msg "are not yet supported") "Safari" "IndexedDB error"
    else mkVerdict false "Safari" "IndexedDB fallback"
  else
    match env.webSqlLs with
    | .ok _ => mkVerdict false "Safari" "WebSQL+localStorage"
    | .error _ => mkVerdict true "Safari" "WebSQL+localStorage blocked"

def chromePrivateTest (env : IncogEnv) : Except String IncogVerdict :=
  let bn := identifyChromium env
  if env.promiseAllSettledDefined then
    if env.webkitTempStorageDefined then
      match env.tempStorageQuota with
      | .ok quota =>
        let quotaInMib := jsRoundDiv quota (1024 * 1024)
        let quotaLimit := env.jsHeapSizeLimit.getD 1073741824
        let quotaLimitInMib := jsRoundDiv quotaLimit (1024 * 1024) * 2
        .ok (mkVerdict (decide (quotaInMib < quotaLimitInMib)) bn "Storage quota check")
      | .error _ => .ok (mkVerdict false bn "Storage quota error")
    else .error "TypeError: navigator.webkitTemporaryStorage is undefined"
  else
    if env.webkitRequestFSDefined then
      if env.fsSuccess then .ok (mkVerdict false bn "Filesystem API")
      else .ok (mkVerdict true bn "Filesystem API blocked")
    else .error "TypeError: window.webkitRequestFileSystem is not a function"

def firefoxPrivateTest (env : IncogEnv) : IncogVerdict :=
  if env.storageGetDirDefined then
    match env.getDirectory with
    | .ok _ => mkVerdict false "Firefox" "Storage API"
    | .error msg => mkVerdict (includesStr msg "Security error") "Firefox" "Storage API error"
  else mkVerdict (!env.serviceWorkerDefined) "Firefox" "ServiceWorker check"

def msiePrivateTest (env : IncogEnv) : IncogVerdict :=
  mkVerdict (!env.indexedDBDefined) "Internet Explorer" "IndexedDB check"

def detectIncognito (env : IncogEnv) : Except String IncogVerdict :=
  if env.toFixedErrLen = 44 then .ok (safariPrivateTest env)
  else if env.toFixedErrLen = 51 then chromePrivateTest env
  else if env.toFixedErrLen = 25 then .ok (firefoxPrivateTest env)
  else if env.msSaveBlobDefined && env.evalToStringLen == 39 then .ok (msiePrivateTest env)
  else .ok (mkVerdict false "Unknown" "Browser not recognized")

/- ------------------------------------------------------------------ -/
/- detectIncognitoMode of the module variant: awaits detectIncognito   -/
/- and converts any rejection into a non-private fallback verdict.     -/
/- ------------------------------------------------------------------ -/

structure PrivacyData where
  isIncognito : Bool
  browserName : String
  detectionMethod : String
deriving DecidableEq

def detectIncognitoMode008 (r : Except String IncogVerdict) : PrivacyData :=
  match r with
  | .ok v => ⟨v.isPrivate, v.browserName, v.method⟩
  | .error _ => ⟨false, "Unknown", "Detection failed"⟩

/- A Chrome 76+ environment with a zero storage quota report: the quota
check fires as the single observed signal. -/
def envSingleSignal : IncogEnv :=
  { toFixedErrLen := 51, msSaveBlobDefined := false, evalToStringLen := 0,
    uaChrome := true, braveDefined := false, uaEdg := false, uaOPR := false,
    storageGetDirDefined := false, getDirectory := .ok (), maxTouchPointsDefined := false,
    idbOpenThrows := false, idbUpgradeFires := false, idbBlobPut := .ok (),
    webSqlLs := .ok (), promiseAllSettledDefined := true, webkitTempStorageDefined := true,
    tempStorageQuota := .ok 0, jsHeapSizeLimit := none, webkitRequestFSDefined := false,
    fsSuccess := false, serviceWorkerDefined := true, indexedDBDefined := true }

/- The same Chrome 76+ environment but with the webkitTemporaryStorage
object absent, so the quota call throws outside every local handler. -/
def envRejecting : IncogEnv :=
  { toFixedErrLen := 51, msSaveBlobDefined := false, evalToStringLen := 0,
    uaChrome := true, braveDefined := false, uaEdg := false, uaOPR := false,
    storageGetDirDefined := false, getDirectory := .ok (), maxTouchPointsDefined := false,
    idbOpenThrows := false, idbUpgradeFires := false, idbBlobPut := .ok (),
    webSqlLs := .ok (), promiseAllSettledDefined := true, webkitTempStorageDefined := false,
    tempStorageQuota := .ok 0, jsHeapSizeLimit := none, webkitRequestFSDefined := false,
    fsSuccess := false, serviceWorkerDefined := true, indexedDBDefined := true }

/- ------------------------------------------------------------------ -/
/- generateFingerprintHash: the 32-bit rolling hash over the UTF-16    -/
/- units of the serialized report, rendered like Number.toString(16).  -/
/- ------------------------------------------------------------------ -/

def toInt32 (x : Int) : Int :=
  let m := x % 4294967296
  if m < 2147483648 then m else m - 4294967296

def hashStep (h : Int) (c : Nat) : Int :=
  toInt32 (toInt32 (h * 32) - h + c)

def natToHex (n : Nat) : String := String.mk (Nat.toDigits 16 n)

def intToHexJs (i : Int) : String :=
  if i < 0 then "-" ++ natToHex i.natAbs else natToHex i.toNat

def generateFingerprintHash (s : String) : String :=
  intToHexJs (s.toList.foldl (fun h c => hashStep h c.toNat) 0)

/- The raw fingerprint data that gatherRawFingerprint assembles and that
processFingerprintData hashes, restricted to its deterministic fields. -/
structure RawData where
  userAgent : String
  platform : String
  languages : List String
  timestamp : String
  timezone : String
  publicIP : Option String
  localIPv4 : List String
  localIPv6 : List String
  screenWidth : Nat
  screenHeight : Nat
  colorDepth : Nat
  cpuCores : Nat
  deviceMemory : Nat
  maxTouchPoints : Nat
  incognito : Bool
  incognitoDetectionMethod : String
deriving DecidableEq

def jsonStr (s : String) : String := "\"" ++ s ++ "\""

def jsonStrArr (xs : List String) : String :=
  "[" ++ String.intercalate "," (xs.map jsonStr) ++ "]"

def jsonOptStr (o : Option String) : String :=
  match o with
  | some s => jsonStr s
  | none => "null"

def jsonBool (b : Bool) : String := if b then "true" else "false"

/- JSON.stringify of the raw data object, with the key order fixed by the
object literal in gatherRawFingerprint. -/
def serializeRawData (d : RawData) : String :=
  "\x7b\"userAgent\":" ++ jsonStr d.userAgent ++
  ",\"platform\":" ++ jsonStr d.platform ++
  ",\"languages\":" ++ jsonStrArr d.languages ++
  ",\"timestamp\":" ++ jsonStr d.timestamp ++
  ",\"timezone\":" ++ jsonStr d.timezone ++
  ",\"network\":\x7b\"publicIP\":" ++ jsonOptStr d.publicIP ++
  ",\"localIPv4\":" ++ jsonStrArr d.localIPv4 ++
  ",\"localIPv6\":" ++ jsonStrArr d.localIPv6 ++ "\x7d" ++
  ",\"screen\":\x7b\"width\":" ++ toString d.screenWidth ++
  ",\"height\":" ++ toString d.screenHeight ++
  ",\"colorDepth\":" ++ toString d.colorDepth ++ "\x7d" ++
  ",\"hardware\":\x7b\"cpuCores\":" ++ toString d.cpuCores ++
  ",\"deviceMemory\":" ++ toString d.deviceMemory ++
  ",\"maxTouchPoints\":" ++ toString d.maxTouchPoints ++ "\x7d" ++
  ",\"incognito\":" ++ jsonBool d.incognito ++
  ",\"incognitoDetectionMethod\":" ++ jsonStr d.incognitoDetectionMethod ++ "\x7d"

/- A concrete raw data record for evaluating the digest pipeline. -/
def sampleRawData : RawData :=
  { userAgent := "Mozilla/5.0", platform := "Linux x86_64", languages := ["en-US", "en"],
    timestamp := "01/01/2025, 12:00:00 pm", timezone := "Asia/Kolkata (IST)",
    publicIP := some "203.0.113.7", localIPv4 := ["192.168.1.23"], localIPv6 := ["Not available"],
    screenWidth := 1920, screenHeight := 1080, colorDepth := 24, cpuCores := 8,
    deviceMemory := 16, maxTouchPoints := 0, incognito := false,
    incognitoDetectionMethod := "Not detected" }

/- ------------------------------------------------------------------ -/
/- Theorems.                                                           -/
/- ------------------------------------------------------------------ -/

theorem stopTrack_stopTrack (t : Track) : stopTrack (stopTrack t) = stopTrack t := rfl

theorem map_stopTrack_idem (l : List Track) :
    (l.map stopTrack).map stopTrack = l.map stopTrack := by
  induction l with
  | nil => rfl
  | cons a t ih => simp [ih, stopTrack]

theorem cleanup_idem (s : AppState) : cleanup (cleanup s) = cleanup s := by
  rcases s with ⟨ms, av, ac, an, bars, lv, ph, st, sd, sl, pt, nt, l4, l6, ll, ct, mt⟩
  cases ms <;> cases ac <;> cases lv <;> cases ph <;>
    simp [cleanup, stopTracks, stopAudioVisualizer, resetVideo, showPlaceholder,
      map_stopTrack_idem, stopTrack_stopTrack, List.map_map, Function.comp]

theorem released_cleanup (s : AppState) : releasedB (cleanup s) = true := by
  rcases s with ⟨ms, av, ac, an, bars, lv, ph, st, sd, sl, pt, nt, l4, l6, ll, ct, mt⟩
  cases ms <;> cases ac <;> cases lv <;> cases ph <;>
    simp [cleanup, stopTracks, stopAudioVisualizer, resetVideo, showPlaceholder,
      releasedB, stopTrack, List.all_eq_true]

theorem runTestsFinish_eq_cleanup (env : RunEnv) (s6 : AppState) :
    ∃ u, runTestsFinish env s6 = cleanup u := by
  unfold runTestsFinish
  rcases hf : env.fingerprintUpload with e | u
  · exact ⟨_, rfl⟩
  · rcases hm : captureAndSaveMedia env s6 with ⟨s7, _ | e⟩
    · exact ⟨_, rfl⟩
    · exact ⟨_, rfl⟩

theorem runTests_ends_in_cleanup (env : RunEnv) (s : AppState) :
    ∃ u, runTests env s = cleanup u := by
  unfold runTests
  exact runTestsFinish_eq_cleanup env _

/-- Claim C3: for every state of the media-capture tester, calling cleanup
twice in a row changes nothing the second time, and after any call to
cleanup no active capture tracks remain, the srcObject of the video element
is cleared and the placeholder is restored. -/
theorem claim3_cleanup_idempotent (s : AppState) :
    cleanup (cleanup s) = cleanup s ∧ releasedB (cleanup s) = true :=
  ⟨cleanup_idem s, released_cleanup s⟩

/-- Claim C2: whenever runTests terminates, normally or through the error
branch, the final state is the result of the cleanup routine and no
acquired capture track remains live; a visibility-change to hidden runs
the cleanup routine exactly once and stops every track, whatever the
mid-test state was. -/
theorem claim2_cleanup_on_all_paths (env : RunEnv) (s : AppState) :
    (∃ u, runTests env s = cleanup u) ∧
    releasedB (runTests env s) = true ∧
    dispatchPageEvent "visibilitychange" "hidden" s = (cleanup s, 1) ∧
    releasedB (dispatchPageEvent "visibilitychange" "hidden" s).1 = true := by
  obtain ⟨u, hu⟩ := runTests_ends_in_cleanup env s
  have hd : dispatchPageEvent "visibilitychange" "hidden" s = (cleanup s, 1) := rfl
  refine ⟨⟨u, hu⟩, ?_, hd, ?_⟩
  · rw [hu]; exact released_cleanup u
  · rw [hd]; exact released_cleanup s

/-- Claim C4, amended: the same-origin lookup is tried first and its address
returned on a successful response; an HTTP non-success response falls back
to the external service whose address is returned when it succeeds; a
transport failure of the same-origin lookup, or failure of both
resolutions, yields null without throwing. -/
theorem claim4_public_ip_fallback (env : IpEnv) (resp resp2 : IpResponse) (ip ip2 : String) :
    (env.getIpFetch = .ok resp → resp.ok = true → resp.json = .ok ip →
      getPublicIP env = some ip) ∧
    (env.getIpFetch = .ok resp → resp.ok = false → env.ipifyFetch = .ok resp2 →
      resp2.ok = true → resp2.json = .ok ip2 → getPublicIP env = some ip2) ∧
    (env.getIpFetch = .error () → getPublicIP env = none) ∧
    (env.getIpFetch = .ok resp → resp.ok = false → env.ipifyFetch = .error () →
      getPublicIP env = none) ∧
    (env.getIpFetch = .ok resp → resp.ok = false → env.ipifyFetch = .ok resp2 →
      resp2.ok = false → getPublicIP env = none) := by
  refine ⟨?_, ?_, ?_, ?_, ?_⟩
  · intro h1 h2 h3; simp [getPublicIP, h1, h2, h3]
  · intro h1 h2 h3 h4 h5; simp [getPublicIP, h1, h2, h3, h4, h5]
  · intro h1; simp [getPublicIP, h1]
  · intro h1 h2 h3; simp [getPublicIP, h1, h2, h3]
  · intro h1 h2 h3 h4; simp [getPublicIP, h1, h2, h3, h4]

theorem claim4_witness :
    getPublicIP ⟨.ok ⟨false, .error ()⟩, .ok ⟨true, .ok "198.51.100.9"⟩⟩ = some "198.51.100.9" :=
  (claim4_public_ip_fallback ⟨.ok ⟨false, .error ()⟩, .ok ⟨true, .ok "198.51.100.9"⟩⟩
    ⟨false, .error ()⟩ ⟨true, .ok "198.51.100.9"⟩ "" "198.51.100.9").2.1 rfl rfl rfl rfl rfl

/-- Claim C4, counterexample: on a transport failure of the same-origin
lookup the catch-all returns null immediately, so the external service is
never consulted even when it would succeed; the claim expects its address
to be returned. -/
theorem claim4_counterexample :
    getPublicIP ⟨.error (), .ok ⟨true, .ok "93.184.216.34"⟩⟩ = none ∧
    getPublicIP ⟨.error (), .ok ⟨true, .ok "93.184.216.34"⟩⟩ ≠ some "93.184.216.34" := by
  refine ⟨rfl, ?_⟩
  decide

theorem attemptCapture_spec (video : Nat → List Nat) :
    ∀ a k : Nat,
      k ≤ (attemptCapture video k a).1 ∧
      (attemptCapture video k a).1 ≤ k + a ∧
      (attemptCapture video k a).2 = video (attemptCapture video k a).1 ∧
      (∀ j, k ≤ j → j < (attemptCapture video k a).1 → isBlankFrame (video j) = true) ∧
      ((attemptCapture video k a).1 < k + a → isBlankFrame ((attemptCapture video k a).2) = false) := by
  intro a
  induction a with
  | zero =>
    intro k
    have h0 : attemptCapture video k 0 = (k, video k) := rfl
    rw [h0]
    exact ⟨Nat.le_refl k, Nat.le_add_right k 0, rfl,
      fun j h1 h2 => absurd h2 (Nat.not_lt.mpr h1),
      fun h => absurd h (Nat.lt_irrefl k)⟩
  | succ a ih =>
    intro k
    by_cases hb : isBlankFrame (video k) = true
    · have heq : attemptCapture video k (a + 1) = attemptCapture video (k + 1) a := by
        simp [attemptCapture, hb]
      obtain ⟨h1, h2, h3, h4, h5⟩ := ih (k + 1)
      rw [heq]
      refine ⟨by omega, by omega, h3, ?_, fun hlt => h5 (by omega)⟩
      intro j hkj hlt
      rcases Nat.eq_or_lt_of_le hkj with h | h
      · rw [← h]; exact hb
      · exact h4 j h hlt
    · have hb2 : isBlankFrame (video k) = false := by
        cases h : isBlankFrame (video k) with
        | false => rfl
        | true => exact absurd h hb
      have heq : attemptCapture video k (a + 1) = (k, video k) := by
        simp [attemptCapture, hb2]
      rw [heq]
      exact ⟨Nat.le_refl k, Nat.le_add_right k (a + 1), rfl,
        fun j h1 h2 => absurd h2 (Nat.not_lt.mpr h1),
        fun _ => hb2⟩

/-- Claim C6: captureImageFrame samples at most four frames, the initial
attempt plus three retries; the resolved frame is the one sampled at the
resolution attempt; a resolution before the bound is exhausted is never a
blank frame; and the result is blank exactly when every sampled frame up to
the bound was blank. -/
theorem claim6_capture_retry_bound (video : Nat → List Nat) :
    (captureImageFrame video).1 ≤ 3 ∧
    (captureImageFrame video).2 = video (captureImageFrame video).1 ∧
    ((captureImageFrame video).1 < 3 → isBlankFrame ((captureImageFrame video).2) = false) ∧
    (isBlankFrame ((captureImageFrame video).2) = true ↔
      ∀ j, j ≤ 3 → isBlankFrame (video j) = true) := by
  obtain ⟨h1, h2, h3, h4, h5⟩ := attemptCapture_spec video 3 0
  unfold captureImageFrame
  refine ⟨by omega, h3, fun hlt => h5 (by omega), ?_, ?_⟩
  · intro hb j hj
    have hidx : (attemptCapture video 0 3).1 = 3 := by
      by_contra hne
      have hlt : (attemptCapture video 0 3).1 < 0 + 3 := by omega
      rw [h5 hlt] at hb
      exact Bool.false_ne_true hb
    rcases Nat.lt_or_ge j 3 with h | h
    · exact h4 j (Nat.zero_le j) (by omega)
    · have hj3 : j = 3 := by omega
      rw [hj3, ← hidx, ← h3]
      exact hb
  · intro hall
    rw [h3]
    exact hall _ (by omega)

theorem claim6_witness :
    (captureImageFrame (fun k => if k = 0 then [0, 0, 0] else [7])).1 ≤ 3 ∧
    isBlankFrame ((captureImageFrame (fun k => if k = 0 then [0, 0, 0] else [7])).2) = false :=
  ⟨(claim6_capture_retry_bound (fun k => if k = 0 then [0, 0, 0] else [7])).1,
   (claim6_capture_retry_bound (fun k => if k = 0 then [0, 0, 0] else [7])).2.2.1 (by decide)⟩

/-- Claim C9: the report content digest is deterministic; serializing and
hashing twice from identical raw data produces identical digest strings. -/
theorem claim9_hash_deterministic (d1 d2 : RawData) (h : d1 = d2) :
    generateFingerprintHash (serializeRawData d1) = generateFingerprintHash (serializeRawData d2) := by
  rw [h]

theorem claim9_witness :
    generateFingerprintHash (serializeRawData sampleRawData) =
      generateFingerprintHash (serializeRawData sampleRawData) ∧
    generateFingerprintHash "abc" = "17862" :=
  ⟨claim9_hash_deterministic sampleRawData sampleRawData rfl, by decide⟩

theorem localLocationFetch_ne_detect (svc : Except Unit LocResponse) :
    localLocationFetch svc ≠ .err "Could not detect local IP" := by
  unfold localLocationFetch
  rcases svc with e | resp
  · cases e
    decide
  · cases hok : resp.ok
    · simp only [hok, Bool.false_eq_true, if_false]
      decide
    · simp [hok]

/-- Claim C10: an address family with no usable gathered address resolves to
the one-element sentinel list rather than an empty array, peer-connection
setup failure resolves both families to the sentinel, and
getLocalIPLocation detects the no-address case exactly by comparing the
first element of each list with the sentinel string. -/
theorem claim10_sentinel (st : GatherState) (tr : List (Nat × IceEvent)) (t : Nat)
    (ips : LocalIPs) (svc : Except Unit LocResponse) :
    (st.v4 = [] → (mkResult st).ipv4 = ["Not available"]) ∧
    (st.v6 = [] → (mkResult st).ipv6 = ["Not available"]) ∧
    (getLocalIPs true tr).resolved = some (0, ⟨["Not available"], ["Not available"]⟩) ∧
    (st.resolved = none → (stepEv st t .offerError).resolved =
      some (t, ⟨["Not available"], ["Not available"]⟩)) ∧
    (getLocalIPLocation ips svc = .err "Could not detect local IP" ↔
      (ips.ipv4.head? = some "Not available" ∧ ips.ipv6.head? = some "Not available")) := by
  refine ⟨?_, ?_, rfl, ?_, ?_⟩
  · intro h; simp [mkResult, h]
  · intro h; simp [mkResult, h]
  · intro h; simp [stepEv, resolveFirst, h]
  · unfold getLocalIPLocation
    constructor
    · intro h
      by_cases hc : (ips.ipv4.head? == some "Not available" &&
          ips.ipv6.head? == some "Not available") = true
      · have hp := (Bool.and_eq_true _ _).mp hc
        exact ⟨eq_of_beq hp.1, eq_of_beq hp.2⟩
      · rw [if_neg hc] at h
        exact absurd h (localLocationFetch_ne_detect svc)
    · intro ⟨h1, h2⟩
      have hc : (ips.ipv4.head? == some "Not available" &&
          ips.ipv6.head? == some "Not available") = true := by
        rw [h1, h2]; rfl
      rw [if_pos hc]

theorem claim10_witness :
    (mkResult gatherInit).ipv4 = ["Not available"] ∧
    getLocalIPLocation ⟨["Not available"], ["Not available"]⟩
      (.ok ⟨true, ⟨"Pune", "MH", "IN"⟩⟩) = .err "Could not detect local IP" :=
  ⟨(claim10_sentinel gatherInit [] 0 ⟨[], []⟩ (.error ())).1 rfl,
   ((claim10_sentinel gatherInit [] 0 ⟨["Not available"], ["Not available"]⟩
      (.ok ⟨true, ⟨"Pune", "MH", "IN"⟩⟩)).2.2.2.2).mpr (by decide)⟩

theorem goodR_mono {L : List String} (n : String) {r : IncogResults} (h : GoodR L r) :
    GoodR (L ++ [n]) r :=
  ⟨h.1, h.2.1, fun m hm => List.mem_append_left _ (h.2.2 m hm)⟩

theorem goodR_flag {L : List String} {n : String} {r : IncogResults}
    (h : GoodR L r) (hn : n ∉ L) : GoodR (L ++ [n]) (flagMethod n r) := by
  obtain ⟨hiff, hnd, hsub⟩ := h
  refine ⟨?_, ?_, ?_⟩
  · simp [flagMethod]
  · have hnotin : n ∉ r.detectionMethods := fun hm => hn (hsub n hm)
    simp [flagMethod, List.nodup_append, hnd, hnotin]
  · intro m hm
    rcases List.mem_append.mp hm with h | h
    · exact List.mem_append_left _ (hsub m h)
    · exact List.mem_append_right _ h

theorem goodR_of_cases {L : List String} {n : String} {r x : IncogResults}
    (h : GoodR L r) (hn : n ∉ L) (hx : x = r ∨ x = flagMethod n r) :
    GoodR (L ++ [n]) x := by
  rcases hx with rfl | rfl
  · exact goodR_mono n h
  · exact goodR_flag h hn

theorem step1_cases (env : Env10) (r : IncogResults) :
    step1 env r = r ∨ step1 env r = flagMethod "storageQuota" r := by
  unfold step1 rawMethod1 tryIgnore
  cases h : env.storageEstimateIn
  · simp
  · rcases hse : env.storageEstimate with e | o
    · simp
    · rcases o with _ | q
      · simp
      · by_cases hc : (q != 0 && decide (q < 120 * 1024 * 1024)) = true
        · simp [hc]
        · simp [hc]

theorem step2_cases (env : Env10) (r : IncogResults) :
    step2 env r = r ∨ step2 env r = flagMethod "fileSystemAPI" r := by
  unfold step2 rawMethod2 tryIgnore
  cases h : env.fsApiIn
  · simp
  · rcases hse : env.fsRequest with e | b
    · simp
    · cases b
      · cases hua : env.uaChrome <;> simp [hua]
      · simp

theorem step3_cases (env : Env10) (r : IncogResults) :
    step3 env r = r ∨ step3 env r = flagMethod "indexedDB" r := by
  unfold step3 rawMethod3 tryIgnore
  cases h : env.uaFirefox
  · simp
  · rcases hse : env.idbOutcome with e | b
    · simp
    · cases b <;> simp

theorem method4_cases (env : Env10) (r : IncogResults) :
    method4 env r = r ∨ method4 env r = flagMethod "localStorage" r := by
  unfold method4
  by_cases h : (env.uaSafari && !env.uaChrome) = true
  · rcases hse : env.lsWrite with e | u <;> simp [h]
  · simp [h]

theorem step5_cases (env : Env10) (r : IncogResults) :
    step5 env r = r ∨ step5 env r = flagMethod "serviceWorker" r := by
  unfold step5 rawMethod5 tryIgnore
  by_cases h : (!r.isIncognito && env.uaChrome && env.swIn) = true
  · rcases hse : env.swGetRegistration with e | b
    · simp [h]
    · cases b
      · rcases hsw : env.swRegister with e | u
        · by_cases hl : r.detectionMethods.length > 0
          · simp [h, hl]
          · simp [h, hl]
        · simp [h]
      · simp [h]
  · simp [h]

theorem tryCatch_pureFallback (x : Except String IncogResults) (r : IncogResults) :
    Except.tryCatch x (fun _ => Except.ok r) = Except.ok (tryIgnore x r) := by
  cases x <;> rfl

theorem detectIncognitoModeE_eq (env : Env10) :
    detectIncognitoModeE env = Except.ok (detectIncognitoMode env) := by
  unfold detectIncognitoModeE detectIncognitoMode step1 step2 step3 step5
  simp [tryCatch_pureFallback, Except.bind]

theorem detectIncognito_pre_good (env : Env10) :
    GoodR ["storageQuota", "fileSystemAPI", "indexedDB", "localStorage", "serviceWorker"]
      (step5 env (method4 env (step3 env (step2 env (step1 env initResults))))) := by
  have g0 : GoodR [] initResults :=
    ⟨by simp [initResults], by simp [initResults], by simp [initResults]⟩
  have g1 := goodR_of_cases g0 (by decide) (step1_cases env initResults)
  have g2 := goodR_of_cases g1 (by decide) (step2_cases env _)
  have g3 := goodR_of_cases g2 (by decide) (step3_cases env _)
  have g4 := goodR_of_cases g3 (by decide) (method4_cases env _)
  have g5 := goodR_of_cases g4 (by decide) (step5_cases env _)
  simpa using g5

theorem finalize_good {L : List String} (r : IncogResults) (h : GoodR L r) :
    ((finalizeVerdict r).isIncognito = true ↔ 2 ≤ (finalizeVerdict r).detectionMethods.length) ∧
    (finalizeVerdict r).detectionMethods.Nodup := by
  obtain ⟨hiff, hnd, _⟩ := h
  unfold finalizeVerdict
  by_cases hlen : r.detectionMethods.length < 2
  · rw [if_pos hlen]
    exact ⟨⟨fun hh => by simp at hh, fun h2 => by simp at h2; omega⟩, hnd⟩
  · rw [if_neg hlen]
    have hlen2 : 2 ≤ r.detectionMethods.length := by omega
    refine ⟨⟨fun _ => hlen2, fun _ => ?_⟩, hnd⟩
    apply hiff.mpr
    intro hnil
    rw [hnil] at hlen2
    simp at hlen2

/-- Claim C1, amended: in the aggregating detector detectIncognitoMode the
verdict is private exactly when at least two distinct detection methods
were recorded, and the recorded method list never holds duplicates; the
single-signal detectIncognito variant violates the original claim, see the
counterexample. -/
theorem claim1_two_signal_rule (env : Env10) :
    ((detectIncognitoMode env).isIncognito = true ↔
      2 ≤ (detectIncognitoMode env).detectionMethods.length) ∧
    (detectIncognitoMode env).detectionMethods.Nodup := by
  unfold detectIncognitoMode
  exact finalize_good _ (detectIncognito_pre_good env)

theorem claim1_witness :
    (detectIncognitoMode envTwoSignals).isIncognito = true ∧
    (detectIncognitoMode envTwoSignals).detectionMethods.length = 2 :=
  ⟨(claim1_two_signal_rule envTwoSignals).1.mpr (by decide), by decide⟩

/-- Claim C1, counterexample: a run of the detectIncognito variant on a
Chrome environment reporting a zero storage quota returns a private
verdict from exactly one observed signal, contradicting the claim that one
signal never yields a private verdict. -/
theorem claim1_counterexample :
    detectIncognito envSingleSignal =
      Except.ok (mkVerdict true "Chrome" "Storage quota check") ∧
    (mkVerdict true "Chrome" "Storage quota check").isPrivate = true ∧
    (mkVerdict true "Chrome" "Storage quota check").signalsObserved.length = 1 :=
  ⟨by decide, rfl, rfl⟩

theorem step1_skip (env : Env10) (r : IncogResults)
    (h : ∃ e, env.storageEstimate = .error e) : step1 env r = r := by
  obtain ⟨e, he⟩ := h
  unfold step1 rawMethod1 tryIgnore
  cases hin : env.storageEstimateIn <;> simp [he]

theorem step2_skip (env : Env10) (r : IncogResults)
    (h : ∃ e, env.fsRequest = .error e) : step2 env r = r := by
  obtain ⟨e, he⟩ := h
  unfold step2 rawMethod2 tryIgnore
  cases hin : env.fsApiIn <;> simp [he]

theorem step3_skip (env : Env10) (r : IncogResults)
    (h : ∃ e, env.idbOutcome = .error e) : step3 env r = r := by
  obtain ⟨e, he⟩ := h
  unfold step3 rawMethod3 tryIgnore
  cases hin : env.uaFirefox <;> simp [he]

theorem step5_skip (env : Env10) (r : IncogResults)
    (h : ∃ e, env.swGetRegistration = .error e) : step5 env r = r := by
  obtain ⟨e, he⟩ := h
  unfold step5 rawMethod5 tryIgnore
  by_cases hc : (!r.isIncognito && env.uaChrome && env.swIn) = true <;> simp [hc, he]

/-- Claim C8, amended: the detectIncognitoMode entry points never throw or
reject past their boundary: the aggregating pipeline always produces a
plain verdict, the module wrapper converts any rejection of the inner
detectIncognito into a non-private fallback verdict, and an environment in
which every guarded engine call fails yields a verdict that is not
private; the inner detectIncognito itself can reject, see the
counterexample. -/
theorem claim8_no_throw (env : Env10) (e : String) :
    (∃ r, detectIncognitoModeE env = Except.ok r) ∧
    detectIncognitoMode008 (Except.error e) = ⟨false, "Unknown", "Detection failed"⟩ ∧
    (allRawFail env → (detectIncognitoMode env).isIncognito = false) := by
  refine ⟨⟨detectIncognitoMode env, detectIncognitoModeE_eq env⟩, rfl, ?_⟩
  intro ⟨h1, h2, h3, h5⟩
  unfold detectIncognitoMode
  rw [step1_skip env _ h1, step2_skip env _ h2, step3_skip env _ h3]
  rcases method4_cases env initResults with hm | hm
  · rw [hm, step5_skip env _ h5]
    decide
  · rw [hm, step5_skip env _ h5]
    decide

theorem claim8_witness :
    detectIncognitoModeE envAllFail = Except.ok (detectIncognitoMode envAllFail) ∧
    (detectIncognitoMode envAllFail).isIncognito = false ∧
    detectIncognitoMode008 (Except.error "TypeError") = ⟨false, "Unknown", "Detection failed"⟩ := by
  have h := claim8_no_throw envAllFail "TypeError"
  exact ⟨by decide,
    h.2.2 ⟨⟨"boom", rfl⟩, ⟨"boom", rfl⟩, ⟨"boom", rfl⟩, ⟨"boom", rfl⟩⟩,
    h.2.1⟩

/-- Claim C8, counterexample: the detectIncognito variant rejects past its
own boundary when the Chrome quota object is absent, because the thrown
TypeError reaches the dispatch catch that rejects the promise. -/
theorem claim8_counterexample :
    detectIncognito envRejecting =
      Except.error "TypeError: navigator.webkitTemporaryStorage is undefined" := by
  decide

theorem foldl_inv (P : GatherState → Prop) :
    ∀ (l : List (Nat × IceEvent)) (st : GatherState),
      (∀ st te, te ∈ l → P st → P (stepEv st te.1 te.2)) → P st →
      P (l.foldl (fun s te => stepEv s te.1 te.2) st) := by
  intro l
  induction l with
  | nil => intro st _ h; exact h
  | cons a tl ih =>
    intro st hstep h
    exact ih _ (fun st te hm hp => hstep st te (List.mem_cons_of_mem a hm) hp)
      (hstep st a (List.mem_cons_self a tl) h)

theorem processCandidate_fields (st : GatherState) (c : String) :
    (processCandidate st c).resolved = st.resolved ∧
    (processCandidate st c).closed = st.closed ∧
    (processCandidate st c).complete = st.complete := by
  unfold processCandidate
  rcases extractIp c with _ | ip
  · exact ⟨rfl, rfl, rfl⟩
  · cases h1 : includesStr ip ":" <;> cases h2 : includesStr ip ".local" <;> simp [h1, h2]

theorem resolveFirst_some (st : GatherState) (t : Nat) (r : LocalIPs) :
    ∃ x, resolveFirst st t r = some x ∧ (x = (t, r) ∨ st.resolved = some x) := by
  unfold resolveFirst
  rcases h : st.resolved with _ | y
  · exact ⟨(t, r), rfl, Or.inl rfl⟩
  · exact ⟨y, rfl, Or.inr rfl⟩

theorem stepEv_inv_pre {B : Nat} (st : GatherState) (t : Nat) (e : IceEvent)
    (ht : t ≤ B) (h : InvPre B st) : InvPre B (stepEv st t e) := by
  obtain ⟨hcc, hcr, hb⟩ := h
  cases e with
  | candidate c =>
    cases hcl : st.closed
    · simp only [stepEv, hcl, Bool.false_eq_true, if_false]
      obtain ⟨hr, hc2, hco⟩ := processCandidate_fields st c
      refine ⟨fun hc => ?_, fun hc => ?_, fun x hx => ?_⟩
      · rw [hc2]; exact hcc (hco ▸ hc)
      · rw [hr]; exact hcr (hco ▸ hc)
      · exact hb x (hr ▸ hx)
    · simp only [stepEv, hcl, if_true]
      exact ⟨hcc, hcr, hb⟩
  | gatherComplete =>
    cases hcl : st.closed
    · simp only [stepEv, hcl, Bool.false_eq_true, if_false]
      obtain ⟨x, hx, hcase⟩ := resolveFirst_some st t (mkResult st)
      refine ⟨fun _ => rfl, fun _ => ⟨x, hx⟩, fun y hy => ?_⟩
      rw [hx] at hy
      cases hy
      rcases hcase with h | h
      · rw [h]; exact ht
      · exact hb x h
    · simp only [stepEv, hcl, if_true]
      exact ⟨hcc, hcr, hb⟩
  | offerError =>
    simp only [stepEv]
    obtain ⟨x, hx, hcase⟩ := resolveFirst_some st t ⟨["Not available"], ["Not available"]⟩
    refine ⟨hcc, fun hc => ⟨x, hx⟩, fun y hy => ?_⟩
    rw [hx] at hy
    cases hy
    rcases hcase with h | h
    · rw [h]; exact ht
    · exact hb x h
  | timer =>
    cases hcm : st.complete
    · simp only [stepEv, hcm, Bool.false_eq_true, if_false]
      obtain ⟨x, hx, hcase⟩ := resolveFirst_some st t (mkResult st)
      refine ⟨fun hc => by simp at hc ⊢, fun hc => ⟨x, hx⟩, fun y hy => ?_⟩
      rw [hx] at hy
      cases hy
      rcases hcase with h | h
      · rw [h]; exact ht
      · exact hb x h
    · simp only [stepEv, hcm, if_true]
      exact ⟨hcc, hcr, hb⟩

theorem stepEv_keeps (st : GatherState) (t : Nat) (e : IceEvent) (x : Nat × LocalIPs)
    (h1 : st.resolved = some x) (h2 : st.closed = true) :
    (stepEv st t e).resolved = some x ∧ (stepEv st t e).closed = true := by
  cases e with
  | candidate c => simp [stepEv, h1, h2]
  | gatherComplete => simp [stepEv, h1, h2]
  | offerError => simp [stepEv, resolveFirst, h1, h2]
  | timer =>
    cases hcm : st.complete
    · simp [stepEv, resolveFirst, hcm, h1]
    · simp [stepEv, hcm, h1, h2]

theorem sorted_le_pivot :
    ∀ (l1 : List (Nat × IceEvent)) (x : Nat × IceEvent) (l2 : List (Nat × IceEvent)),
      sortedByTime (l1 ++ x :: l2) = true → ∀ y ∈ l1, y.1 ≤ x.1 := by
  intro l1
  induction l1 with
  | nil => intro x l2 _ y hy; cases hy
  | cons a tl ih =>
    intro x l2 h y hy
    cases tl with
    | nil =>
      simp only [List.nil_append, List.cons_append, sortedByTime, Bool.and_eq_true,
        decide_eq_true_eq] at h
      rcases List.mem_singleton.mp hy with rfl
      exact h.1
    | cons b t2 =>
      simp only [List.cons_append, sortedByTime, Bool.and_eq_true, decide_eq_true_eq] at h
      obtain ⟨hab, hrest⟩ := h
      rcases List.mem_cons.mp hy with rfl | hy2
      · have hbx := ih x l2 hrest b (List.mem_cons_self b t2)
        omega
      · exact ih x l2 hrest y hy2

/-- Claim C5: for every run of local-address gathering whose event trace is
time-ordered and contains the 2000 ms timer callback, the promise is
resolved at some time no later than the timeout bound, whichever of the
gathering-complete event or the timer fired first; on the event-driven path
the peer connection is torn down, and a constructor failure resolves
immediately. -/
theorem claim5_gather_bounded (flag : Bool) (tr : List (Nat × IceEvent))
    (hs : sortedByTime tr = true) (hmem : (2000, IceEvent.timer) ∈ tr) :
    ∃ t r, (getLocalIPs flag tr).resolved = some (t, r) ∧ t ≤ 2000 ∧
      (flag = false → (getLocalIPs flag tr).closed = true) := by
  cases flag
  · obtain ⟨pre, post, htr⟩ := List.append_of_mem hmem
    subst htr
    have hget : getLocalIPs false (pre ++ (2000, IceEvent.timer) :: post) =
        runGather (pre ++ (2000, IceEvent.timer) :: post) := rfl
    rw [hget]
    unfold runGather
    rw [List.foldl_append, List.foldl_cons]
    have hpre_le : ∀ te ∈ pre, te.1 ≤ 2000 := sorted_le_pivot pre _ post hs
    have hinit : InvPre 2000 gatherInit := by
      refine ⟨fun hc => ?_, fun hc => ?_, fun x hx => ?_⟩
      · simp [gatherInit] at hc
      · simp [gatherInit] at hc
      · simp [gatherInit] at hx
    have hinv : InvPre 2000 (pre.foldl (fun s te => stepEv s te.1 te.2) gatherInit) :=
      foldl_inv (InvPre 2000) pre gatherInit
        (fun st te hm hp => stepEv_inv_pre st te.1 te.2 (hpre_le te hm) hp) hinit
    set st1 := pre.foldl (fun s te => stepEv s te.1 te.2) gatherInit with hst1
    obtain ⟨hcc, hcr, hb⟩ := hinv
    have hstep : ∃ x, (stepEv st1 2000 IceEvent.timer).resolved = some x ∧ x.1 ≤ 2000 ∧
        (stepEv st1 2000 IceEvent.timer).closed = true := by
      cases hcm : st1.complete
      · obtain ⟨x, hx, hcase⟩ := resolveFirst_some st1 2000 (mkResult st1)
        refine ⟨x, ?_, ?_, ?_⟩
        · simp [stepEv, hcm, hx]
        · rcases hcase with h | h
          · rw [h]
          · exact hb x h
        · simp [stepEv, hcm]
      · obtain ⟨x, hx⟩ := hcr hcm
        refine ⟨x, ?_, hb x hx, ?_⟩
        · simp [stepEv, hcm, hx]
        · simp [stepEv, hcm, hcc hcm]
    obtain ⟨x, hx, hxle, hxcl⟩ := hstep
    have hpost : (post.foldl (fun s te => stepEv s te.1 te.2)
        (stepEv st1 2000 IceEvent.timer)).resolved = some x ∧
        (post.foldl (fun s te => stepEv s te.1 te.2)
          (stepEv st1 2000 IceEvent.timer)).closed = true :=
      foldl_inv (fun st => st.resolved = some x ∧ st.closed = true) post _
        (fun st te _ hp => stepEv_keeps st te.1 te.2 x hp.1 hp.2) ⟨hx, hxcl⟩
    exact ⟨x.1, x.2, by rw [hpost.1], hxle, fun _ => hpost.2⟩
  · refine ⟨0, ⟨["Not available"], ["Not available"]⟩, rfl, by omega, fun hcontra => ?_⟩
    cases hcontra

theorem claim5_witness :
    sortedByTime [(500, IceEvent.candidate "candidate:2 1 udp 2122 192.168.1.23 54401 typ host"),
      (2000, IceEvent.timer)] = true ∧
    (2000, IceEvent.timer) ∈ [(500, IceEvent.candidate "candidate:2 1 udp 2122 192.168.1.23 54401 typ host"),
      (2000, IceEvent.timer)] ∧
    ∃ t r, (getLocalIPs false [(500, IceEvent.candidate "candidate:2 1 udp 2122 192.168.1.23 54401 typ host"),
      (2000, IceEvent.timer)]).resolved = some (t, r) ∧ t ≤ 2000 ∧
      (false = false → (getLocalIPs false [(500, IceEvent.candidate "candidate:2 1 udp 2122 192.168.1.23 54401 typ host"),
        (2000, IceEvent.timer)]).closed = true) :=
  ⟨by decide, by decide,
   claim5_gather_bounded false _ (by decide) (by decide)⟩

theorem addUnique_clean {l : List String} {x : String}
    (h : cleanList l) (hx : includesStr x ".local" = false) : cleanList (addUnique l x) := by
  unfold addUnique
  by_cases hm : x ∈ l
  · simp only [hm, if_true]; exact h
  · simp only [hm, if_false]
    constructor
    · simp [List.nodup_append, h.1, hm]
    · intro ip hip
      rcases List.mem_append.mp hip with h2 | h2
      · exact h.2 ip h2
      · rcases List.mem_singleton.mp h2 with rfl
        exact hx

theorem mkResult_clean (st : GatherState) (h4 : cleanList st.v4) (h6 : cleanList st.v6) :
    ResultClean (mkResult st) := by
  unfold ResultClean mkResult
  constructor
  · by_cases hl : st.v4.length > 0
    · simp only [hl, if_true]; exact h4
    · simp only [hl, if_false]; exact ⟨by decide, by decide⟩
  · by_cases hl : st.v6.length > 0
    · simp only [hl, if_true]; exact h6
    · simp only [hl, if_false]; exact ⟨by decide, by decide⟩

theorem processCandidate_inv (st : GatherState) (c : String)
    (h : InvClean st) : InvClean (processCandidate st c) := by
  obtain ⟨h4, h6, hres⟩ := h
  unfold processCandidate
  rcases extractIp c with _ | ip
  · exact ⟨h4, h6, hres⟩
  · cases h1 : includesStr ip ":" <;> cases h2 : includesStr ip ".local" <;> simp [h1, h2]
    · exact ⟨addUnique_clean h4 h2, h6, hres⟩
    · exact ⟨h4, h6, hres⟩
    · exact ⟨h4, addUnique_clean h6 h2, hres⟩
    · exact ⟨h4, h6, hres⟩

theorem sentinel_clean : ResultClean ⟨["Not available"], ["Not available"]⟩ := by
  refine ⟨⟨?_, ?_⟩, ⟨?_, ?_⟩⟩
  · exact List.nodup_singleton _
  · intro ip hip
    rcases List.mem_singleton.mp hip with rfl
    decide
  · exact List.nodup_singleton _
  · intro ip hip
    rcases List.mem_singleton.mp hip with rfl
    decide

theorem stepEv_inv_clean (st : GatherState) (t : Nat) (e : IceEvent)
    (h : InvClean st) : InvClean (stepEv st t e) := by
  obtain ⟨h4, h6, hres⟩ := h
  cases e with
  | candidate c =>
    cases hcl : st.closed
    · simp only [stepEv, hcl, Bool.false_eq_true, if_false]
      exact processCandidate_inv st c ⟨h4, h6, hres⟩
    · simp only [stepEv, hcl, if_true]; exact ⟨h4, h6, hres⟩
  | gatherComplete =>
    cases hcl : st.closed
    · simp only [stepEv, hcl, Bool.false_eq_true, if_false]
      refine ⟨h4, h6, fun x hx => ?_⟩
      obtain ⟨y, hy, hcase⟩ := resolveFirst_some st t (mkResult st)
      rw [hy] at hx
      have hxy : y = x := Option.some.inj hx
      subst hxy
      rcases hcase with h | h
      · rw [h]; exact mkResult_clean st h4 h6
      · exact hres y h
    · simp only [stepEv, hcl, if_true]; exact ⟨h4, h6, hres⟩
  | offerError =>
    simp only [stepEv]
    refine ⟨h4, h6, fun x hx => ?_⟩
    obtain ⟨y, hy, hcase⟩ := resolveFirst_some st t ⟨["Not available"], ["Not available"]⟩
    rw [hy] at hx
    have hxy : y = x := Option.some.inj hx
    subst hxy
    rcases hcase with h | h
    · rw [h]; exact sentinel_clean
    · exact hres y h
  | timer =>
    cases hcm : st.complete
    · simp only [stepEv, hcm, Bool.false_eq_true, if_false]
      refine ⟨h4, h6, fun x hx => ?_⟩
      obtain ⟨y, hy, hcase⟩ := resolveFirst_some st t (mkResult st)
      rw [hy] at hx
      have hxy : y = x := Option.some.inj hx
      subst hxy
      rcases hcase with h | h
      · rw [h]; exact mkResult_clean st h4 h6
      · exact hres y h
    · simp only [stepEv, hcm, if_true]; exact ⟨h4, h6, hres⟩

/-- Claim C7, amended: whatever result local-address gathering resolves,
each of the IPv4 and IPv6 lists contains no duplicate entries and no
mDNS-obscured .local entry; loopback and link-local addresses, however,
are not filtered by the code, see the counterexample. -/
theorem claim7_dedup_filter (flag : Bool) (tr : List (Nat × IceEvent)) (t : Nat) (r : LocalIPs)
    (h : (getLocalIPs flag tr).resolved = some (t, r)) :
    r.ipv4.Nodup ∧ r.ipv6.Nodup ∧
    (∀ ip ∈ r.ipv4, includesStr ip ".local" = false) ∧
    (∀ ip ∈ r.ipv6, includesStr ip ".local" = false) := by
  cases flag
  · have hinit : InvClean gatherInit :=
      ⟨⟨List.nodup_nil, fun ip hip => absurd hip (List.not_mem_nil ip)⟩,
       ⟨List.nodup_nil, fun ip hip => absurd hip (List.not_mem_nil ip)⟩,
       fun x hx => by simp [gatherInit] at hx⟩
    have hinv : InvClean (runGather tr) :=
      foldl_inv InvClean tr gatherInit
        (fun st te _ hp => stepEv_inv_clean st te.1 te.2 hp) hinit
    have hrc := hinv.2.2 (t, r) h
    exact ⟨hrc.1.1, hrc.2.1, hrc.1.2, hrc.2.2⟩
  · have hx : (getLocalIPs true tr).resolved =
        some (0, ⟨["Not available"], ["Not available"]⟩) := rfl
    rw [hx] at h
    cases h
    exact ⟨by decide, by decide, by decide, by decide⟩

theorem claim7_witness :
    (getLocalIPs false [(2000, IceEvent.timer)]).resolved =
      some (2000, ⟨["Not available"], ["Not available"]⟩) ∧
    (⟨["Not available"], ["Not available"]⟩ : LocalIPs).ipv4.Nodup :=
  ⟨by decide,
   (claim7_dedup_filter false [(2000, IceEvent.timer)] 2000
      ⟨["Not available"], ["Not available"]⟩ (by decide)).1⟩

/-- Claim C7, counterexample: a gathered loopback host candidate passes the
filter and 127.0.0.1 appears in the resolved IPv4 list, contradicting the
claim that no loopback address appears. -/
theorem claim7_counterexample :
    (getLocalIPs false loopbackTrace).resolved =
      some (2000, ⟨["127.0.0.1"], ["Not available"]⟩) := by
  decide

end ConnTest
